import Mathlib

/-!
Verification of the heuristic post-processing logic of the Kenya Startup
Navigator backend (`src/main.py`).

The three post-processing functions (`calculate_confidence`,
`generate_follow_ups`, `generate_sources`) are pure string heuristics; they
are embedded below over Lean strings, with Python's floating-point arithmetic
modelled exactly over the rationals `ℚ` (all constants involved are decimal
fractions and the computations are sums, divisions and `min`).  Python's
substring test `a in b` is embedded as the executable `substrB`; `str.lower`
and `str.isdigit` are modelled by `Char.toLower` / `Char.isDigit` (the source
only ever matches ASCII keywords).  The upstream-response handling of
`process_query` is embedded as `handle_groq_response` over an abstracted
upstream reply (status code, raw body text, and the extracted list of
completion-choice contents).
-/

namespace StartupNavigator

/-- Python's `str.startswith` on exploded strings: `prefB n h` is true iff
`n` is a prefix of `h`. -/
def prefB : List Char → List Char → Bool
  | [], _ => true
  | _ :: _, [] => false
  | a :: as, b :: bs => a == b && prefB as bs

/-- Python's substring test `n in h` on exploded strings. -/
def substrB (needle : List Char) : List Char → Bool
  | [] => needle.isEmpty
  | c :: rest => prefB needle (c :: rest) || substrB needle rest

/-- Number of positions of `h` at which `needle` starts (used to state
"the text contains `needle` twice"). -/
def countSub (needle : List Char) : List Char → Nat
  | [] => if prefB needle [] then 1 else 0
  | c :: rest => (if prefB needle (c :: rest) then 1 else 0) + countSub needle rest

/-- Python's `s.lower()` (ASCII case folding), as a character list. -/
def lowerS (s : String) : List Char := s.data.map Char.toLower

/-- The domain vocabulary of `calculate_confidence` (`kenya_terms` in
`src/main.py`). -/
def kenya_terms : List String :=
  ["kenya", "kenyan", "nairobi", "mombasa", "kra", "cbk", "ihub",
   "tlcom", "novastar", "mest", "antler", "shilling", "east africa",
   "kiico", "ecitizen"]

/-- `kenya_mentions` of `calculate_confidence`: how many vocabulary terms
occur (case-insensitively, presence not frequency) in the text. -/
def kenya_mentions (content : String) : Nat :=
  kenya_terms.countP (fun term => substrB (lowerS term) (lowerS content))

/-- Length factor of `calculate_confidence`. -/
def length_score (content : String) : ℚ :=
  min ((content.data.length : ℚ) / 1000) 1 * (3 / 10)

/-- Domain-relevance factor of `calculate_confidence`. -/
def kenya_score (content : String) : ℚ :=
  min ((kenya_mentions content : ℚ) / 5) 1 * (4 / 10)

/-- The structural markers checked by `calculate_confidence`. -/
def structure_indicators : List String :=
  ["##", "**", "###", "- ", "1.", "2.", "3."]

/-- `structure_count` of `calculate_confidence` (presence, not frequency;
matched against the raw, un-lowercased text, as in the source). -/
def structure_count (content : String) : Nat :=
  structure_indicators.countP (fun ind => substrB ind.data content.data)

/-- Structure factor of `calculate_confidence`. -/
def structure_score (content : String) : ℚ :=
  min ((structure_count content : ℚ) / 5) 1 * (2 / 10)

/-- Specificity bonus of `calculate_confidence`: `+0.1` when the text has a
digit character. -/
def specificity_score (content : String) : ℚ :=
  if content.data.any Char.isDigit then 1 / 10 else 0

/-- `calculate_confidence(content, question)` from `src/main.py`: empty text
short-circuits to `0.0`; otherwise the four sub-scores are summed and the
total is clamped by `min(score, 1.0)`.  The `question` argument is accepted
but never read, exactly as in the source. -/
def calculate_confidence (content question : String) : ℚ :=
  if content.data = [] then 0
  else
    min (length_score content + kenya_score content + structure_score content
          + specificity_score content) 1

/-- The funding follow-up set of `generate_follow_ups`. -/
def funding_follow_ups : List String :=
  ["What documents do I need to prepare for investor meetings?",
   "How long does the fundraising process typically take in Kenya?",
   "What valuation should I expect at my current stage?"]

/-- The legal follow-up set of `generate_follow_ups`. -/
def legal_follow_ups : List String :=
  ["What are the ongoing compliance requirements after incorporation?",
   "How much should I budget for legal and regulatory costs?",
   "Which law firms in Kenya specialize in startups?"]

/-- The accelerator-program follow-up set of `generate_follow_ups`. -/
def program_follow_ups : List String :=
  ["What are the application requirements for top accelerators?",
   "When are the next application deadlines?",
   "How do I prepare for accelerator interviews?"]

/-- The market follow-up set of `generate_follow_ups`. -/
def market_follow_ups : List String :=
  ["How do I conduct effective market research in Kenya?",
   "What are the key customer acquisition channels here?",
   "How should I price my product for the Kenyan market?"]

/-- The default follow-up set of `generate_follow_ups`. -/
def default_follow_ups : List String :=
  ["How do I get started in Kenya's startup ecosystem?",
   "What funding options are available for early-stage startups?",
   "Which accelerators should I consider applying to in Nairobi?"]

/-- `generate_follow_ups(question)` from `src/main.py`: the question is
lowercased once and matched, by substring, against the keyword lists of the
categories in fixed priority order. -/
def generate_follow_ups (question : String) : List String :=
  let ql := lowerS question
  if ["funding", "invest", "money", "capital", "raise"].any
      (fun w => substrB w.data ql) then funding_follow_ups
  else if ["legal", "register", "compliance", "law"].any
      (fun w => substrB w.data ql) then legal_follow_ups
  else if ["accelerator", "incubator", "program"].any
      (fun w => substrB w.data ql) then program_follow_ups
  else if ["market", "customer", "competition"].any
      (fun w => substrB w.data ql) then market_follow_ups
  else default_follow_ups

/-- `generate_sources(content)` from `src/main.py`: the base label, then one
label per matched organization keyword in checklist order, then the AI label,
truncated to the first 4 entries. -/
def generate_sources (content : String) : List String :=
  let c := lowerS content
  (["Kenya Startup Ecosystem Database"]
    ++ (if substrB ("tlcom").data c then ["TLcom Capital"] else [])
    ++ (if substrB ("novastar").data c then ["Novastar Ventures"] else [])
    ++ (if substrB ("ihub").data c then ["iHub Nairobi"] else [])
    ++ (if substrB ("mest").data c then ["MEST Africa"] else [])
    ++ (if ["cbk", "central bank"].any (fun t => substrB t.data c) then
          ["Central Bank of Kenya"] else [])
    ++ (if substrB ("kra").data c then ["Kenya Revenue Authority"] else [])
    ++ ["Groq AI Analysis"]).take 4

/-- The organization labels of `generate_sources`, in checklist order. -/
def org_checklist : List String :=
  ["TLcom Capital", "Novastar Ventures", "iHub Nairobi", "MEST Africa",
   "Central Bank of Kenya", "Kenya Revenue Authority"]

/-- The fixed apology answer used when the completion reply has no choices. -/
def apology : String :=
  "I apologize, but I couldn't generate a response. Please try again."

/-- Abstraction of the upstream HTTP reply seen by `process_query`: the
status code, the raw body text, and the `choices` field of the decoded JSON
(`none` when absent), with each choice abstracted to its message content. -/
structure GroqResponse where
  status_code : Nat
  text : String
  choices : Option (List String)

/-- A FastAPI `HTTPException` as raised by `process_query`. -/
structure HTTPException where
  status_code : Nat
  detail : String
deriving DecidableEq

/-- The successful payload assembled by `process_query` (the two wall-clock
fields `processing_time` and `timestamp` are not modelled). -/
structure QueryResponse where
  answer : String
  confidence : ℚ
  sources : List String
  suggested_follow_ups : List String
deriving DecidableEq

/-- Content extraction of `process_query`: `data["choices"][0]["message"]
["content"]` when `choices` is present and non-empty, else the apology. -/
def extract_content (choices : Option (List String)) : String :=
  match choices with
  | some (c :: _) => c
  | some [] => apology
  | none => apology

/-- The upstream-response handling of `process_query` (`src/main.py`
lines 150-193): status-code dispatch, then content extraction and the three
heuristics on the happy path. -/
def handle_groq_response (resp : GroqResponse) (question : String) :
    Except HTTPException QueryResponse :=
  if resp.status_code = 401 then
    Except.error ⟨500, "Invalid Groq API key. Please check your GROQ_API_KEY."⟩
  else if resp.status_code = 429 then
    Except.error ⟨429, "Rate limit exceeded. Please try again in a moment."⟩
  else if resp.status_code ≠ 200 then
    Except.error ⟨500,
      "Groq API error: " ++ toString resp.status_code ++ " - " ++ resp.text⟩
  else
    let content := extract_content resp.choices
    Except.ok
      { answer := content
        confidence := calculate_confidence content question
        sources := generate_sources content
        suggested_follow_ups := generate_follow_ups question }

/-! ### Helper lemmas about the substring primitives -/

theorem substrB_nil_left : ∀ h : List Char, substrB [] h = true
  | [] => rfl
  | _ :: _ => by simp [substrB, prefB]

theorem prefB_map (f : Char → Char) :
    ∀ n h : List Char, prefB n h = true → prefB (n.map f) (h.map f) = true
  | [], _, _ => rfl
  | _ :: _, [], hp => by simp [prefB] at hp
  | a :: as, b :: bs, hp => by
    simp only [prefB, Bool.and_eq_true, beq_iff_eq] at hp
    obtain ⟨rfl, h2⟩ := hp
    simp [List.map_cons, prefB, prefB_map f as bs h2]

theorem substrB_map (f : Char → Char) :
    ∀ n h : List Char, substrB n h = true → substrB (n.map f) (h.map f) = true
  | n, [], hs => by
    simp only [substrB, List.isEmpty_iff] at hs
    subst hs
    exact substrB_nil_left _
  | n, c :: rest, hs => by
    simp only [substrB, Bool.or_eq_true] at hs
    rcases hs with hp | hr
    · have := prefB_map f n (c :: rest) hp
      simp only [List.map_cons] at this ⊢
      simp [substrB, this]
    · have := substrB_map f n rest hr
      simp only [List.map_cons]
      simp [substrB, this]

theorem substrB_of_countSub :
    ∀ n h : List Char, 1 ≤ countSub n h → substrB n h = true
  | n, [], hc => by
    simp only [countSub] at hc
    split at hc
    · next hp =>
      cases n with
      | nil => rfl
      | cons a as => simp [prefB] at hp
    · omega
  | n, c :: rest, hc => by
    simp only [countSub] at hc
    simp only [substrB, Bool.or_eq_true]
    by_cases hp : prefB n (c :: rest) = true
    · exact Or.inl hp
    · rw [if_neg hp] at hc
      exact Or.inr (substrB_of_countSub n rest (by omega))

theorem prefB_append_self : ∀ n y : List Char, prefB n (n ++ y) = true
  | [], _ => rfl
  | a :: as, y => by
    simp [List.cons_append, prefB, prefB_append_self as y]

theorem substrB_append_mid :
    ∀ (x n y : List Char), substrB n (x ++ n ++ y) = true
  | [], n, y => by
    cases n with
    | nil => exact substrB_nil_left _
    | cons a as =>
      simp only [List.nil_append, List.cons_append, substrB, Bool.or_eq_true]
      exact Or.inl (by
        have := prefB_append_self (a :: as) y
        simpa using this)
  | c :: x, n, y => by
    simp only [List.cons_append, substrB, Bool.or_eq_true]
    exact Or.inr (substrB_append_mid x n y)

theorem ne_nil_of_substrB {n h : List Char} (hn : n ≠ [])
    (hs : substrB n h = true) : h ≠ [] := by
  intro he
  subst he
  cases n with
  | nil => exact hn rfl
  | cons a as => simp [substrB] at hs

/-! ### Helper lemmas about the sub-scores -/

theorem length_score_nonneg (content : String) : 0 ≤ length_score content := by
  unfold length_score
  have h1 : (0 : ℚ) ≤ (content.data.length : ℚ) / 1000 := by positivity
  exact mul_nonneg (le_min h1 zero_le_one) (by norm_num)

theorem kenya_score_nonneg (content : String) : 0 ≤ kenya_score content := by
  unfold kenya_score
  have h1 : (0 : ℚ) ≤ (kenya_mentions content : ℚ) / 5 := by positivity
  exact mul_nonneg (le_min h1 zero_le_one) (by norm_num)

theorem structure_score_nonneg (content : String) : 0 ≤ structure_score content := by
  unfold structure_score
  have h1 : (0 : ℚ) ≤ (structure_count content : ℚ) / 5 := by positivity
  exact mul_nonneg (le_min h1 zero_le_one) (by norm_num)

theorem specificity_score_nonneg (content : String) : 0 ≤ specificity_score content := by
  unfold specificity_score
  split <;> norm_num

/-! ### Claim theorems -/

/-- C1: for every input text and question, `calculate_confidence` returns a
value in `[0, 1]`; the length score saturates at `0.3` for texts of at least
1000 characters, and the domain score is `0` when no domain term occurs. -/
theorem confidence_in_unit_interval (content question : String) :
    0 ≤ calculate_confidence content question ∧
    calculate_confidence content question ≤ 1 ∧
    (1000 ≤ content.data.length → length_score content = 3 / 10) ∧
    (kenya_mentions content = 0 → kenya_score content = 0) := by
  refine ⟨?_, ?_, ?_, ?_⟩
  · unfold calculate_confidence
    split
    · exact le_refl 0
    · refine le_min ?_ zero_le_one
      have h1 := length_score_nonneg content
      have h2 := kenya_score_nonneg content
      have h3 := structure_score_nonneg content
      have h4 := specificity_score_nonneg content
      linarith
  · unfold calculate_confidence
    split
    · exact zero_le_one
    · exact min_le_right _ _
  · intro h
    unfold length_score
    have h1 : (1 : ℚ) ≤ (content.data.length : ℚ) / 1000 := by
      rw [le_div_iff₀ (by norm_num : (0 : ℚ) < 1000)]
      norm_num
      exact_mod_cast h
    rw [min_eq_right h1]
    norm_num
  · intro h
    unfold kenya_score
    rw [h]
    norm_num

set_option maxRecDepth 100000 in
/-- C1 witness: a 1000-character text with no domain term realises both the
length-score saturation and the zero domain score. -/
theorem confidence_in_unit_interval_witness :
    1000 ≤ (String.mk (List.replicate 1000 'z')).data.length ∧
    kenya_mentions (String.mk (List.replicate 1000 'z')) = 0 ∧
    length_score (String.mk (List.replicate 1000 'z')) = 3 / 10 ∧
    kenya_score (String.mk (List.replicate 1000 'z')) = 0 := by
  have h := confidence_in_unit_interval (String.mk (List.replicate 1000 'z')) "q"
  have hlen : 1000 ≤ (String.mk (List.replicate 1000 'z')).data.length := by
    show 1000 ≤ (List.replicate 1000 'z').length
    rw [List.length_replicate]
  have hker : kenya_mentions (String.mk (List.replicate 1000 'z')) = 0 := by
    decide
  exact ⟨hlen, hker, h.2.2.1 hlen, h.2.2.2 hker⟩

/-- C2: the empty response text short-circuits `calculate_confidence` to
exactly `0`, whatever the question. -/
theorem confidence_empty_text (question : String) :
    calculate_confidence "" question = 0 := rfl

/-- C10: the `question` argument of `calculate_confidence` has no influence
on the returned score. -/
theorem confidence_ignores_question (content q1 q2 : String) :
    calculate_confidence content q1 = calculate_confidence content q2 := rfl

/-- C3: `generate_follow_ups` always returns one of the five literal
3-element follow-up sets (so exactly 3 strings), and any question whose
lowercasing contains `"funding"` gets exactly the funding set. -/
theorem follow_ups_three_and_funding (q : String) :
    (generate_follow_ups q).length = 3 ∧
    generate_follow_ups q ∈ [funding_follow_ups, legal_follow_ups,
      program_follow_ups, market_follow_ups, default_follow_ups] ∧
    (substrB ("funding").data (lowerS q) = true →
      generate_follow_ups q = funding_follow_ups) := by
  refine ⟨?_, ?_, ?_⟩
  · simp only [generate_follow_ups]
    split_ifs <;> rfl
  · simp only [generate_follow_ups]
    split_ifs <;> simp
  · intro h
    have hany : (["funding", "invest", "money", "capital", "raise"].any
        (fun w => substrB w.data (lowerS q))) = true := by
      simp only [List.any_eq_true]
      exact ⟨"funding", by simp, h⟩
    unfold generate_follow_ups
    simp [hany]

/-- C3 witness: an upper-case `"FUNDING"` question takes the funding branch. -/
theorem follow_ups_three_and_funding_witness :
    substrB ("funding").data (lowerS "Any FUNDING tips?") = true ∧
    generate_follow_ups "Any FUNDING tips?" = funding_follow_ups := by
  have h : substrB ("funding").data (lowerS "Any FUNDING tips?") = true := by
    decide
  exact ⟨h, (follow_ups_three_and_funding "Any FUNDING tips?").2.2 h⟩

/-- C5: `generate_sources` always starts with the base label and never
returns more than 4 entries. -/
theorem sources_base_and_at_most_four (content : String) :
    (generate_sources content).head? = some "Kenya Startup Ecosystem Database" ∧
    (generate_sources content).length ≤ 4 := by
  constructor
  · exact rfl
  · simp only [generate_sources]
    exact List.length_take_le _ _

/-- C6: when the text contains `tlcom`, `kra`, `mest` and `ihub`
(case-insensitively), `generate_sources` returns exactly 4 entries — the base
label followed by organization labels in checklist order — and the trailing
AI-analysis label is truncated away. -/
theorem sources_four_orgs_truncate_ai (content : String)
    (ht : substrB ("tlcom").data (lowerS content) = true)
    (hk : substrB ("kra").data (lowerS content) = true)
    (hm : substrB ("mest").data (lowerS content) = true)
    (hi : substrB ("ihub").data (lowerS content) = true) :
    (generate_sources content).length = 4 ∧
    (generate_sources content).head? = some "Kenya Startup Ecosystem Database" ∧
    ((generate_sources content).drop 1).Sublist org_checklist ∧
    "Groq AI Analysis" ∉ generate_sources content := by
  cases hnov : substrB ("novastar").data (lowerS content) with
  | false =>
    have hres : generate_sources content =
        ["Kenya Startup Ecosystem Database", "TLcom Capital",
         "iHub Nairobi", "MEST Africa"] := by
      simp [generate_sources, ht, hk, hm, hi, hnov]
    rw [hres]
    refine ⟨rfl, rfl, by decide, by decide⟩
  | true =>
    have hres : generate_sources content =
        ["Kenya Startup Ecosystem Database", "TLcom Capital",
         "Novastar Ventures", "iHub Nairobi"] := by
      simp [generate_sources, ht, hk, hm, hi, hnov]
    rw [hres]
    refine ⟨rfl, rfl, by decide, by decide⟩

/-- C6 witness: a text naming all four organizations. -/
theorem sources_four_orgs_truncate_ai_witness :
    substrB ("tlcom").data (lowerS "tlcom kra mest ihub") = true ∧
    substrB ("kra").data (lowerS "tlcom kra mest ihub") = true ∧
    substrB ("mest").data (lowerS "tlcom kra mest ihub") = true ∧
    substrB ("ihub").data (lowerS "tlcom kra mest ihub") = true ∧
    (generate_sources "tlcom kra mest ihub").length = 4 ∧
    "Groq AI Analysis" ∉ generate_sources "tlcom kra mest ihub" := by
  have h := sources_four_orgs_truncate_ai "tlcom kra mest ihub"
    (by decide) (by decide) (by decide) (by decide)
  exact ⟨by decide, by decide, by decide, by decide, h.1, h.2.2.2⟩

/-- C4 counterexample: the domain vocabulary of the source has 15 terms, not
14, and a text can match all 15 of them at once. -/
theorem domain_vocabulary_has_fifteen_terms :
    kenya_terms.length = 15 ∧
    kenya_mentions
      "kenya kenyan nairobi mombasa kra cbk ihub tlcom novastar mest antler shilling east africa kiico ecitizen"
      = 15 := by
  exact ⟨by decide, by decide⟩

/-- C4 (amended): the domain-relevance sub-score is
`min(count/5, 1) * 0.4` where `count` is the number of terms of the fixed
15-term vocabulary occurring case-insensitively in the text, and for
non-empty text this sub-score enters `calculate_confidence` as one of the
four summands. -/
theorem domain_score_fifteen_term_formula (content question : String)
    (h : content.data ≠ []) :
    kenya_terms.length = 15 ∧
    kenya_score content =
      min ((kenya_terms.countP
        (fun term => substrB (lowerS term) (lowerS content)) : ℚ) / 5) 1
        * (4 / 10) ∧
    calculate_confidence content question =
      min (length_score content + kenya_score content + structure_score content
            + specificity_score content) 1 := by
  refine ⟨rfl, rfl, ?_⟩
  unfold calculate_confidence
  rw [if_neg h]

/-- C4 witness: a one-term text. -/
theorem domain_score_fifteen_term_formula_witness :
    ("ecitizen").data ≠ [] ∧
    calculate_confidence "ecitizen" "q" =
      min (length_score "ecitizen" + kenya_score "ecitizen"
            + structure_score "ecitizen" + specificity_score "ecitizen") 1 := by
  have h : ("ecitizen").data ≠ [] := by decide
  exact ⟨h, (domain_score_fifteen_term_formula "ecitizen" "q" h).2.2⟩

/-- C7 counterexample: the text `"KenyaKenya##7"` contains `"Kenya"` twice,
one `"##"` header and a digit, yet its confidence is `0.2239`, not above
`0.3`. -/
theorem confidence_not_above_threshold_example :
    countSub ("Kenya").data ("KenyaKenya##7").data = 2 ∧
    substrB ("##").data ("KenyaKenya##7").data = true ∧
    ("KenyaKenya##7").data.any Char.isDigit = true ∧
    calculate_confidence "KenyaKenya##7" "How do I raise funding in Nairobi?"
      = 2239 / 10000 ∧
    ¬ (3 / 10 <
        calculate_confidence "KenyaKenya##7" "How do I raise funding in Nairobi?") := by
  have hv : calculate_confidence "KenyaKenya##7" "How do I raise funding in Nairobi?"
      = 2239 / 10000 := by
    have hne : ("KenyaKenya##7").data ≠ [] := by decide
    have h1 : ((("KenyaKenya##7").data.length : ℕ) : ℚ) = 13 := by
      have h : ("KenyaKenya##7").data.length = 13 := by decide
      exact_mod_cast h
    have h2 : ((kenya_mentions "KenyaKenya##7" : ℕ) : ℚ) = 1 := by
      have h : kenya_mentions "KenyaKenya##7" = 1 := by decide
      exact_mod_cast h
    have h3 : ((structure_count "KenyaKenya##7" : ℕ) : ℚ) = 1 := by
      have h : structure_count "KenyaKenya##7" = 1 := by decide
      exact_mod_cast h
    have h4 : ("KenyaKenya##7").data.any Char.isDigit = true := by decide
    unfold calculate_confidence length_score kenya_score structure_score
      specificity_score
    rw [if_neg hne, if_pos h4, h1, h2, h3]
    norm_num [min_def]
  refine ⟨by decide, by decide, by decide, hv, ?_⟩
  rw [hv]
  norm_num

/-- C7 (amended): a text containing `"Kenya"` at least twice, a `"##"`
header and a digit always scores strictly above `0.22` and at most `1`. -/
theorem confidence_kenya_structure_digit_bounds (content question : String)
    (hk : 2 ≤ countSub ("Kenya").data content.data)
    (hs : substrB ("##").data content.data = true)
    (hd : content.data.any Char.isDigit = true) :
    11 / 50 < calculate_confidence content question ∧
    calculate_confidence content question ≤ 1 := by
  have hsub : substrB ("Kenya").data content.data = true :=
    substrB_of_countSub _ _ (by omega)
  have hlowmapped := substrB_map Char.toLower _ _ hsub
  have hkmap : ("Kenya").data.map Char.toLower = ("kenya").data := by decide
  rw [hkmap] at hlowmapped
  have hne : content.data ≠ [] := ne_nil_of_substrB (by decide) hs
  have hmen : 0 < kenya_mentions content := by
    unfold kenya_mentions
    rw [List.countP_pos_iff]
    refine ⟨"kenya", by decide, ?_⟩
    show substrB (lowerS "kenya") (lowerS content) = true
    have hlk : lowerS "kenya" = ("kenya").data := by decide
    rw [hlk]
    exact hlowmapped
  have hstr : 0 < structure_count content := by
    unfold structure_count
    rw [List.countP_pos_iff]
    exact ⟨"##", by decide, hs⟩
  have hks : 2 / 25 ≤ kenya_score content := by
    unfold kenya_score
    have h1 : (1 : ℚ) ≤ (kenya_mentions content : ℚ) := by exact_mod_cast hmen
    have h2 : (1 : ℚ) / 5 ≤ min ((kenya_mentions content : ℚ) / 5) 1 :=
      le_min (by linarith) (by norm_num)
    have h3 := mul_le_mul_of_nonneg_right h2 (by norm_num : (0 : ℚ) ≤ 4 / 10)
    linarith
  have hss : 1 / 25 ≤ structure_score content := by
    unfold structure_score
    have h1 : (1 : ℚ) ≤ (structure_count content : ℚ) := by exact_mod_cast hstr
    have h2 : (1 : ℚ) / 5 ≤ min ((structure_count content : ℚ) / 5) 1 :=
      le_min (by linarith) (by norm_num)
    have h3 := mul_le_mul_of_nonneg_right h2 (by norm_num : (0 : ℚ) ≤ 2 / 10)
    linarith
  have hsp : specificity_score content = 1 / 10 := by
    unfold specificity_score
    simp [hd]
  have hls : 0 < length_score content := by
    unfold length_score
    have hlen : 0 < content.data.length := List.length_pos.mpr hne
    have h0 : (0 : ℚ) < (content.data.length : ℚ) / 1000 := by
      have hc : (0 : ℚ) < (content.data.length : ℚ) := by exact_mod_cast hlen
      linarith
    exact mul_pos (lt_min h0 one_pos) (by norm_num)
  constructor
  · unfold calculate_confidence
    rw [if_neg hne]
    refine lt_min ?_ (by norm_num)
    rw [hsp]
    linarith
  · unfold calculate_confidence
    rw [if_neg hne]
    exact min_le_right _ _

/-- C7 witness: concrete text meeting all three conditions. -/
theorem confidence_kenya_structure_digit_bounds_witness :
    2 ≤ countSub ("Kenya").data ("Kenya has 47 counties. ## Kenya").data ∧
    substrB ("##").data ("Kenya has 47 counties. ## Kenya").data = true ∧
    ("Kenya has 47 counties. ## Kenya").data.any Char.isDigit = true ∧
    11 / 50 < calculate_confidence "Kenya has 47 counties. ## Kenya" "q" ∧
    calculate_confidence "Kenya has 47 counties. ## Kenya" "q" ≤ 1 := by
  have h := confidence_kenya_structure_digit_bounds
    "Kenya has 47 counties. ## Kenya" "q" (by decide) (by decide) (by decide)
  exact ⟨by decide, by decide, by decide, h.1, h.2⟩

/-- C8: an HTTP 200 upstream reply whose `choices` field is absent or empty
does not fail: the handler returns a successful response whose answer is the
fixed apology string. -/
theorem empty_choices_degrades_to_apology (resp : GroqResponse) (question : String)
    (h200 : resp.status_code = 200)
    (hch : resp.choices = none ∨ resp.choices = some []) :
    handle_groq_response resp question =
      Except.ok
        { answer := apology
          confidence := calculate_confidence apology question
          sources := generate_sources apology
          suggested_follow_ups := generate_follow_ups question } := by
  rcases hch with h | h <;>
    simp [handle_groq_response, h200, h, extract_content]

/-- C8 witness: a 200 reply with no `choices` field. -/
theorem empty_choices_degrades_to_apology_witness :
    (GroqResponse.mk 200 "" none).status_code = 200 ∧
    handle_groq_response ⟨200, "", none⟩ "q" =
      Except.ok
        { answer := apology
          confidence := calculate_confidence apology "q"
          sources := generate_sources apology
          suggested_follow_ups := generate_follow_ups "q" } :=
  ⟨rfl, empty_choices_degrades_to_apology ⟨200, "", none⟩ "q" rfl (Or.inl rfl)⟩

/-- C9 counterexample: HTTP 401 is a non-200, non-429 status, yet the handler
maps it to the fixed configuration-error message, which carries neither the
upstream status code nor the response body. -/
theorem non200_mapping_fails_at_401 :
    handle_groq_response ⟨401, "unauthorized", none⟩ "q" =
      Except.error ⟨500, "Invalid Groq API key. Please check your GROQ_API_KEY."⟩ ∧
    (401 : Nat) ≠ 200 ∧ (401 : Nat) ≠ 429 ∧
    substrB ("401").data
      ("Invalid Groq API key. Please check your GROQ_API_KEY.").data = false ∧
    substrB ("unauthorized").data
      ("Invalid Groq API key. Please check your GROQ_API_KEY.").data = false := by
  refine ⟨rfl, by decide, by decide, by decide, by decide⟩

/-- C9 (amended): HTTP 429 maps to the rate-limit error, which is distinct
from the generic upstream error; any other non-200 status except 401 maps to
the generic upstream error, whose message contains the upstream status code
and the response body. -/
theorem upstream_error_mapping (resp : GroqResponse) (question : String) :
    (resp.status_code = 429 →
      handle_groq_response resp question =
        Except.error ⟨429, "Rate limit exceeded. Please try again in a moment."⟩ ∧
      handle_groq_response resp question ≠
        Except.error ⟨500,
          "Groq API error: " ++ toString resp.status_code ++ " - " ++ resp.text⟩) ∧
    (resp.status_code ≠ 200 → resp.status_code ≠ 401 → resp.status_code ≠ 429 →
      handle_groq_response resp question =
        Except.error ⟨500,
          "Groq API error: " ++ toString resp.status_code ++ " - " ++ resp.text⟩ ∧
      substrB (toString resp.status_code).data
        ("Groq API error: " ++ toString resp.status_code ++ " - " ++ resp.text).data
        = true ∧
      substrB resp.text.data
        ("Groq API error: " ++ toString resp.status_code ++ " - " ++ resp.text).data
        = true) := by
  constructor
  · intro h429
    have heq : handle_groq_response resp question =
        Except.error ⟨429, "Rate limit exceeded. Please try again in a moment."⟩ := by
      simp [handle_groq_response, h429]
    refine ⟨heq, ?_⟩
    rw [heq]
    intro hcon
    simp at hcon
  · intro h200 h401 h429
    have heq : handle_groq_response resp question =
        Except.error ⟨500,
          "Groq API error: " ++ toString resp.status_code ++ " - " ++ resp.text⟩ := by
      simp [handle_groq_response, h200, h401, h429]
    refine ⟨heq, ?_, ?_⟩
    · have hdata :
          ("Groq API error: " ++ toString resp.status_code ++ " - " ++ resp.text).data
            = ("Groq API error: ").data ++ (toString resp.status_code).data
              ++ ((" - ").data ++ resp.text.data) := by
        simp [String.data_append, List.append_assoc]
      rw [hdata]
      exact substrB_append_mid _ _ _
    · have hdata :
          ("Groq API error: " ++ toString resp.status_code ++ " - " ++ resp.text).data
            = (("Groq API error: ").data ++ (toString resp.status_code).data
              ++ (" - ").data) ++ resp.text.data := by
        simp [String.data_append, List.append_assoc]
      rw [hdata]
      have h := substrB_append_mid
        (("Groq API error: ").data ++ (toString resp.status_code).data
          ++ (" - ").data) resp.text.data []
      rwa [List.append_nil] at h

/-- C9 witness: a 429 reply and a 503 reply. -/
theorem upstream_error_mapping_witness :
    (GroqResponse.mk 429 "slow down" none).status_code = 429 ∧
    handle_groq_response ⟨429, "slow down", none⟩ "q" =
      Except.error ⟨429, "Rate limit exceeded. Please try again in a moment."⟩ ∧
    handle_groq_response ⟨503, "busy", none⟩ "q" =
      Except.error ⟨500,
        "Groq API error: " ++ toString (503 : Nat) ++ " - " ++ "busy"⟩ ∧
    substrB (toString (503 : Nat)).data
      ("Groq API error: " ++ toString (503 : Nat) ++ " - " ++ "busy").data = true := by
  have h1 := (upstream_error_mapping ⟨429, "slow down", none⟩ "q").1 rfl
  have h2 := (upstream_error_mapping ⟨503, "busy", none⟩ "q").2
    (by decide) (by decide) (by decide)
  exact ⟨rfl, h1.1, h2.1, h2.2.1⟩

end StartupNavigator
